import Mathlib

/-!
Verification of the tool-dispatch and caching layer of the `mcp-on-vercel`
repository (`lib/apptweak-api.ts` and the AppTweak `api/server.ts` tool
registrations), as a shallow embedding in Lean 4.

Modelling conventions:
* JavaScript objects used as parameter records become ordered association
  lists `List (String × JValue)` (JS objects preserve insertion order, and
  `JSON.stringify` serializes fields in that order).
* The Redis cache stores `JSON.stringify(data)` and the dispatcher returns
  `JSON.parse(cachedData)`; since `JSON.parse ∘ JSON.stringify` is the
  identity on JSON values, the cache is modelled as storing the JSON value
  itself.  Cache keys are modelled as the literal strings the code builds.
* Exceptions thrown inside `fetchAppTweakData`'s `try` block are modelled by
  explicit control flow reaching the single `catch`, which returns the
  `{error: true, message}` payload.
* Network and Redis I/O are modelled by oracles in an `Env` structure, and
  each I/O attempt is recorded in an event trace.
-/

namespace AppTweak

/-- A JavaScript value as it appears in tool parameters: strings, numbers
(the tools only pass integers), arrays of strings, `null`, and `undefined`
(a missing/optional value). -/
inductive JValue where
  | str (s : String)
  | num (n : Int)
  | arr (xs : List String)
  | jnull
  | undef
deriving DecidableEq, Repr

/-- A parameter record: a JS object in insertion order. -/
abbrev Params := List (String × JValue)

/-- JSON response values. -/
inductive Json where
  | null
  | str (s : String)
  | num (n : Int)
  | bool (b : Bool)
  | arr (xs : List Json)
  | obj (fields : List (String × Json))

/-- Property lookup on a JS object: first binding wins; a field explicitly
bound to `undefined` behaves as absent. -/
def lookupParam (ps : Params) (k : String) : Option JValue :=
  match ps.lookup k with
  | some JValue.undef => none
  | o => o

/-- JSON string escaping for the quote and backslash characters (the only
escapes the repository's parameter strings can need). -/
def jsonEscape (s : String) : String :=
  String.join (s.data.map fun c =>
    if c = '\\' then "\\\\" else if c = '"' then "\\\"" else String.singleton c)

/-- `JSON.stringify` of a string. -/
def jquote (s : String) : String := "\"" ++ jsonEscape s ++ "\""

/-- `JSON.stringify` of one object field; `undefined` fields are omitted. -/
def stringifyField : String × JValue → Option String
  | (_, JValue.undef) => none
  | (k, JValue.jnull) => some (jquote k ++ ":null")
  | (k, JValue.str s) => some (jquote k ++ ":" ++ jquote s)
  | (k, JValue.num n) => some (jquote k ++ ":" ++ toString n)
  | (k, JValue.arr xs) =>
      some (jquote k ++ ":[" ++ String.intercalate "," (xs.map jquote) ++ "]")

/-- `JSON.stringify(params)`: fields in insertion order, `undefined` omitted. -/
def stringifyParams (ps : Params) : String :=
  "\x7b" ++ String.intercalate "," (ps.filterMap stringifyField) ++ "\x7d"

/-- The cache key built at apptweak-api.ts line 90:
`apptweak:${action}:${JSON.stringify(params)}`. -/
def cacheKey (action : String) (params : Params) : String :=
  "apptweak:" ++ action ++ ":" ++ stringifyParams params

/-- Does the character list `s` start with `pat`? -/
def startsWithL : List Char → List Char → Bool
  | _, [] => true
  | [], _ :: _ => false
  | c :: cs, p :: ps => c = p && startsWithL cs ps

/-- Replace the first occurrence of `pat` in `s` by `rep`
(JS `String.prototype.replace` with a string pattern). -/
def replFirstL (s pat rep : List Char) : List Char :=
  match s with
  | [] => []
  | c :: cs => if startsWithL s pat then rep ++ s.drop pat.length
               else c :: replFirstL cs pat rep

/-- JS `s.replace(pat, rep)` on strings (first occurrence only). -/
def replaceFirst (s pat rep : String) : String :=
  String.mk (replFirstL s.data pat.data rep.data)

/-- The static endpoint mapping of `fetchAppTweakData`
(apptweak-api.ts lines 102–129), authored for the `ios` platform. -/
def endpoints : List (String × String) :=
  [ ("search_app", "ios/applications/search.json"),
    ("get_app_details", "ios/applications/lookup.json"),
    ("get_reviews", "ios/applications/reviews.json"),
    ("get_top_displayed_reviews", "ios/applications/featured_reviews.json"),
    ("search_reviews", "ios/applications/reviews/search.json"),
    ("get_review_stats", "ios/applications/reviews/stats.json"),
    ("analyze_ratings", "ios/applications/ratings.json"),
    ("discover_keywords", "ios/keywords/suggestions.json"),
    ("track_keyword_rankings", "ios/keywords/rankings.json"),
    ("get_keyword_stats", "ios/keywords/stats.json"),
    ("get_keyword_volume_history", "ios/keywords/volume/history.json"),
    ("analyze_top_keywords", "ios/keywords/top.json"),
    ("get_category_top_keywords", "ios/categories/keywords.json"),
    ("get_trending_keywords", "ios/categories/trending_searches.json"),
    ("get_competitors", "ios/applications/competitors.json"),
    ("analyze_competitive_position", "ios/applications/power.json"),
    ("get_downloads", "ios/applications/downloads.json") ]

/-- The tool names registered in the endpoint table. -/
def endpointNames : List String := endpoints.map Prod.fst

/-- Endpoint selection (apptweak-api.ts lines 131–135):
`endpoints[action] || ""`, then `ios/` is replaced by `android/` when
`params.platform === "android"`.  An empty result means unknown action. -/
def selectEndpoint (action : String) (params : Params) : String :=
  let e := ((endpoints.lookup action).getD "")
  if lookupParam params "platform" = some (JValue.str "android") then
    replaceFirst e "ios/" "android/"
  else e

/-- Outcome of the upstream HTTP GET (`fetch` in `makeAppTweakRequest`):
either `response.ok` with parsed JSON, or a non-2xx status with the
response body text. -/
inductive FetchOutcome where
  | ok (data : Json)
  | httpError (status : Nat) (body : String)

/-- Process environment and I/O oracles.  `redisUrl` models
`REDIS_URL || KV_URL` (when absent, no Redis client is created and caching
is disabled); `apptweakApiKey` models `APPTWEAK_API_KEY`; `upstream` is the
network oracle from `(endpoint, query)` to the HTTP outcome;
`redisGetFail`/`redisSetFail`, when `some msg`, make `redis.get`/`redis.set`
throw an error with message `msg`. -/
structure Env where
  redisUrl : Option String
  apptweakApiKey : Option String
  upstream : String → List (String × String) → FetchOutcome
  redisGetFail : Option String
  redisSetFail : Option String

/-- Observable I/O events of one `fetchAppTweakData` call. -/
inductive Event where
  | redisGet (key : String) (hit : Bool)
  | redisGetThrew (key : String)
  | httpFetch (endpoint : String) (query : List (String × String))
  | redisSet (key : String)
  | redisSetThrew (key : String)
deriving DecidableEq, Repr

/-- Is the event an upstream HTTP fetch? -/
def Event.isFetch : Event → Bool
  | Event.httpFetch _ _ => true
  | _ => false

/-- Is the event a cache read attempt (successful or thrown)? -/
def Event.isCacheRead : Event → Bool
  | Event.redisGet _ _ => true
  | Event.redisGetThrew _ => true
  | _ => false

/-- Is the event a cache write attempt (successful or thrown)? -/
def Event.isCacheWrite : Event → Bool
  | Event.redisSet _ => true
  | Event.redisSetThrew _ => true
  | _ => false

/-- URL query serialization of `makeAppTweakRequest` (lines 53–62):
`undefined`/`null` values are omitted, arrays become repeated `key[]`
entries with each item stringified, scalars are stringified. -/
def queryParams : Params → List (String × String)
  | [] => []
  | (k, v) :: rest =>
    (match v with
     | JValue.undef => []
     | JValue.jnull => []
     | JValue.str s => [(k, s)]
     | JValue.num n => [(k, toString n)]
     | JValue.arr xs => xs.map (fun x => (k ++ "[]", x))) ++ queryParams rest

/-- The `{error: true, message}` payload built by `fetchAppTweakData`'s
`catch` block (lines 153–156). -/
def errPayload (msg : String) : Json :=
  Json.obj [("error", Json.bool true), ("message", Json.str msg)]

/-- The Redis cache contents, modelled as key/JSON-value bindings with the
most recent binding first (see the module comment for the
stringify/parse boundary). -/
abbrev Cache := List (String × Json)

/-- `redis.get key` on a reachable cache. -/
def cacheGet (c : Cache) (k : String) : Option Json := c.lookup k

/-- `redis.set key value` on a reachable cache (overwrite by shadowing). -/
def cacheSet (c : Cache) (k : String) (v : Json) : Cache := (k, v) :: c

/-- `makeAppTweakRequest` (lines 43–78): throws when `APPTWEAK_API_KEY` is
unset (before any network I/O), otherwise performs the HTTP GET and throws
`AppTweak API error (status): body` on a non-2xx status.  Returns the
thrown message or the parsed JSON, together with the fetch events. -/
def makeAppTweakRequest (env : Env) (endpoint : String) (params : Params) :
    Except String Json × List Event :=
  match env.apptweakApiKey with
  | none => (Except.error "APPTWEAK_API_KEY environment variable is not set", [])
  | some _ =>
    let q := queryParams params
    match env.upstream endpoint q with
    | FetchOutcome.ok data => (Except.ok data, [Event.httpFetch endpoint q])
    | FetchOutcome.httpError status body =>
        (Except.error ("AppTweak API error (" ++ toString status ++ "): " ++ body),
         [Event.httpFetch endpoint q])

/-- Result of one `fetchAppTweakData` call: the returned payload, the cache
after the call, and the I/O event trace. -/
structure DispatchOut where
  payload : Json
  cache : Cache
  events : List Event

/-- The cache-miss path of `fetchAppTweakData` (lines 101–150): select the
endpoint, throw `Unknown AppTweak API action` when it is empty, make the
upstream request, and on success write the result to the cache when Redis
is configured.  A thrown error anywhere lands in the `catch` block, which
returns `errPayload` of the error's message. -/
def fetchMissPath (env : Env) (cache : Cache) (action : String) (params : Params)
    (key : String) (evs : List Event) : DispatchOut :=
  let endpoint := selectEndpoint action params
  if endpoint = "" then
    ⟨errPayload ("Unknown AppTweak API action: " ++ action), cache, evs⟩
  else
    match makeAppTweakRequest env endpoint params with
    | (Except.error msg, fe) => ⟨errPayload msg, cache, evs ++ fe⟩
    | (Except.ok data, fe) =>
      if env.redisUrl.isSome then
        match env.redisSetFail with
        | some msg => ⟨errPayload msg, cache, evs ++ fe ++ [Event.redisSetThrew key]⟩
        | none => ⟨data, cacheSet cache key data, evs ++ fe ++ [Event.redisSet key]⟩
      else ⟨data, cache, evs ++ fe⟩

/-- `fetchAppTweakData` (lines 87–158): build the cache key, try the cache
when Redis is configured (returning the cached value on a hit), otherwise
run the miss path.  Every thrown error is caught and converted to
`errPayload`. -/
def fetchAppTweakData (env : Env) (cache : Cache) (action : String)
    (params : Params) : DispatchOut :=
  let key := cacheKey action params
  if env.redisUrl.isSome then
    match env.redisGetFail with
    | some msg => ⟨errPayload msg, cache, [Event.redisGetThrew key]⟩
    | none =>
      match cacheGet cache key with
      | some v => ⟨v, cache, [Event.redisGet key true]⟩
      | none => fetchMissPath env cache action params key [Event.redisGet key false]
  else
    fetchMissPath env cache action params key []

/-- The zod value types used by the tool schemas in `api/server.ts`:
`z.string()`, `z.number()`, `z.array(z.string())`, `z.enum([...])`. -/
inductive FTy where
  | fstr
  | fnum
  | fstrArr
  | fenum (vals : List String)
deriving DecidableEq, Repr

/-- Field modifier: plain required, `.optional()`, or `.default(v)`. -/
inductive FMode where
  | required
  | optional
  | withDefault (v : JValue)
deriving DecidableEq, Repr

/-- One declared schema field. -/
structure Field where
  name : String
  ty : FTy
  mode : FMode
deriving DecidableEq, Repr

/-- Does a present value satisfy the zod type?  Note `z.array(z.string())`
accepts the empty array. -/
def typeOk : FTy → JValue → Bool
  | FTy.fstr, JValue.str _ => true
  | FTy.fnum, JValue.num _ => true
  | FTy.fstrArr, JValue.arr _ => true
  | FTy.fenum vals, JValue.str s => vals.contains s
  | _, _ => false

/-- zod parsing of one field of the raw input: a present value must match
the type; a missing (or `undefined`) value fails for a required field,
stays `undefined` for an `.optional()` field, and becomes the declared
default for a `.default(v)` field. -/
def validateField (raw : Params) (f : Field) : Option JValue :=
  match lookupParam raw f.name with
  | some v => if typeOk f.ty v then some v else none
  | none =>
    match f.mode with
    | FMode.required => none
    | FMode.optional => some JValue.undef
    | FMode.withDefault d => some d

/-- zod parsing of the whole raw input against a schema.  The output record
lists the fields in schema declaration order, which is also the order in
which every handler in `api/server.ts` rebuilds the object literal it
passes to `fetchAppTweakData`. -/
def applySchema (fields : List Field) (raw : Params) : Option Params :=
  match fields with
  | [] => some []
  | f :: rest =>
    match validateField raw f, applySchema rest raw with
    | some v, some ps => some ((f.name, v) :: ps)
    | _, _ => none

/-- `platform: z.enum(["ios", "android"])`. -/
def platformField : Field := ⟨"platform", FTy.fenum ["ios", "android"], FMode.required⟩

/-- `country: z.string().default("US")`. -/
def countryUS : Field := ⟨"country", FTy.fstr, FMode.withDefault (JValue.str "US")⟩

/-- `language: z.string().default("en")`. -/
def languageEn : Field := ⟨"language", FTy.fstr, FMode.withDefault (JValue.str "en")⟩

/-- The body of a registered tool handler.  The ten AppTweak handlers all
have the same shape — call `fetchAppTweakData` with the validated record and
attach their literal `routingInfo` — so a body is either that shape with the
handler's literal `tabId`/`sectionId` (all handlers write
`highlightEffect: true`), or the echo body. -/
inductive ToolBody where
  | apptweak (tabId sectionId : String)
  | echoBody
deriving DecidableEq, Repr

/-- The tool registrations of `api/server.ts` in declaration order: each
`server.tool(name, schema, handler)` call becomes an entry
`(name, (schema, body))`. -/
def toolRegs : List (String × (List Field × ToolBody)) :=
  [ ("search_app",
      ([⟨"query", FTy.fstr, FMode.required⟩, platformField, countryUS, languageEn],
       ToolBody.apptweak "overview" "app-info")),
    ("get_app_details",
      ([⟨"appId", FTy.fstr, FMode.required⟩, platformField, countryUS, languageEn],
       ToolBody.apptweak "overview" "app-info")),
    ("get_reviews",
      ([⟨"appId", FTy.fstr, FMode.required⟩, platformField, countryUS],
       ToolBody.apptweak "reviews" "recent-reviews")),
    ("get_top_displayed_reviews",
      ([⟨"appId", FTy.fstr, FMode.required⟩, platformField, countryUS,
        ⟨"size", FTy.fnum, FMode.withDefault (JValue.num 50)⟩,
        ⟨"sort", FTy.fenum ["most_useful", "most_recent", "most_positive"],
         FMode.withDefault (JValue.str "most_useful")⟩],
       ToolBody.apptweak "reviews" "featured-reviews")),
    ("analyze_ratings",
      ([⟨"appId", FTy.fstr, FMode.required⟩, platformField, countryUS, languageEn,
        ⟨"startDate", FTy.fstr, FMode.optional⟩,
        ⟨"endDate", FTy.fstr, FMode.optional⟩],
       ToolBody.apptweak "reviews" "rating-analysis")),
    ("discover_keywords",
      ([⟨"query", FTy.fstr, FMode.required⟩, platformField, countryUS, languageEn,
        ⟨"limit", FTy.fnum, FMode.withDefault (JValue.num 20)⟩],
       ToolBody.apptweak "keywords" "keyword-discovery")),
    ("analyze_top_keywords",
      ([⟨"appIds", FTy.fstrArr, FMode.required⟩, platformField, countryUS,
        ⟨"limit", FTy.fnum, FMode.withDefault (JValue.num 10)⟩,
        ⟨"sortBy", FTy.fenum ["score", "volume", "rank"],
         FMode.withDefault (JValue.str "score")⟩],
       ToolBody.apptweak "keywords" "top-keywords")),
    ("get_competitors",
      ([⟨"appId", FTy.fstr, FMode.required⟩, platformField, countryUS, languageEn],
       ToolBody.apptweak "competitors" "competitor-discovery")),
    ("analyze_competitive_position",
      ([⟨"appId", FTy.fstr, FMode.required⟩, platformField, countryUS,
        ⟨"competitors", FTy.fstrArr, FMode.optional⟩],
       ToolBody.apptweak "competitors" "competitive-analysis")),
    ("get_downloads",
      ([⟨"appId", FTy.fstr, FMode.required⟩, platformField,
        ⟨"country", FTy.fstr, FMode.required⟩,
        ⟨"startDate", FTy.fstr, FMode.required⟩,
        ⟨"endDate", FTy.fstr, FMode.required⟩],
       ToolBody.apptweak "overview" "download-statistics")),
    ("echo",
      ([⟨"message", FTy.fstr, FMode.required⟩], ToolBody.echoBody)) ]

/-- The declared schemas by tool name. -/
def toolSchemas : List (String × List Field) :=
  toolRegs.map (fun t => (t.1, t.2.1))

/-- The registered tool names, in registration order. -/
def registeredTools : List String := toolRegs.map Prod.fst

/-- Routing metadata attached to a tool result by the calling dashboard's
contract: `{tabId, sectionId, highlightEffect}` (the literal objects in
each handler's `metadata.routingInfo`). -/
structure RoutingInfo where
  tabId : String
  sectionId : String
  highlightEffect : Bool
deriving DecidableEq, Repr

/-- One typed content block of a tool response. -/
inductive Content where
  | json (j : Json)
  | text (s : String)

/-- The response envelope a handler returns: a content block plus optional
`metadata.routingInfo`. -/
structure Envelope where
  content : Content
  routing : Option RoutingInfo

/-- String field accessor used by the echo handler's template literal. -/
def strOf (ps : Params) (k : String) : String :=
  match ps.lookup k with
  | some (JValue.str s) => s
  | _ => ""

/-- Shared shape of the ten AppTweak handler bodies: call
`fetchAppTweakData` with the validated record and wrap the result with the
handler's literal routing metadata (always `highlightEffect: true`). -/
def wrapTool (env : Env) (cache : Cache) (name : String) (ps : Params)
    (tabId sectionId : String) : Envelope × Cache × List Event :=
  let out := fetchAppTweakData env cache name ps
  (⟨Content.json out.payload, some ⟨tabId, sectionId, true⟩⟩, out.cache, out.events)

/-- Run one registered handler body on the validated record. -/
def runBody (env : Env) (cache : Cache) (name : String) (ps : Params) :
    ToolBody → Envelope × Cache × List Event
  | ToolBody.apptweak tabId sectionId => wrapTool env cache name ps tabId sectionId
  | ToolBody.echoBody =>
      (⟨Content.text ("Tool echo: " ++ strOf ps "message"), none⟩, cache, [])

/-- The tool layer of `api/server.ts`: the MCP SDK validates the raw input
against the declared schema (`none` models rejection: unregistered tool or
schema validation failure, in which case the handler body never runs), then
the named handler body runs with the validated, default-filled record. -/
def handleTool (env : Env) (cache : Cache) (name : String) (raw : Params) :
    Option (Envelope × Cache × List Event) :=
  match toolRegs.lookup name with
  | none => none
  | some (schema, body) =>
    match applySchema schema raw with
    | none => none
    | some ps => some (runBody env cache name ps body)

/-- The spec's Routing Table: the static tool-name → routing-metadata
mapping, collected from the `metadata.routingInfo` literals of the
handlers in `api/server.ts` (the echo tool attaches none). -/
def routingTable : List (String × RoutingInfo) :=
  [ ("search_app", ⟨"overview", "app-info", true⟩),
    ("get_app_details", ⟨"overview", "app-info", true⟩),
    ("get_reviews", ⟨"reviews", "recent-reviews", true⟩),
    ("get_top_displayed_reviews", ⟨"reviews", "featured-reviews", true⟩),
    ("analyze_ratings", ⟨"reviews", "rating-analysis", true⟩),
    ("discover_keywords", ⟨"keywords", "keyword-discovery", true⟩),
    ("analyze_top_keywords", ⟨"keywords", "top-keywords", true⟩),
    ("get_competitors", ⟨"competitors", "competitor-discovery", true⟩),
    ("analyze_competitive_position", ⟨"competitors", "competitive-analysis", true⟩),
    ("get_downloads", ⟨"overview", "download-statistics", true⟩) ]

/-- Is a declared default value well-typed for its field? -/
def defaultOk (f : Field) : Bool :=
  match f.mode with
  | FMode.withDefault d => typeOk f.ty d
  | _ => true

/-- The path after the leading `ios/` platform segment of a table entry. -/
def pathTail (name : String) : String :=
  String.mk (((endpoints.lookup name).getD "").data.drop 4)

/-- Does the character list contain `pat` as a contiguous substring? -/
def containsSubL : List Char → List Char → Bool
  | [], pat => pat.isEmpty
  | c :: cs, pat => startsWithL (c :: cs) pat || containsSubL cs pat

/-- Does the string contain `pat` as a substring? -/
def containsSub (s pat : String) : Bool := containsSubL s.data pat.data

theorem lookup_append {β : Type} (k : String) (l1 l2 : List (String × β)) :
    ((l1 ++ l2).lookup k) = ((l1.lookup k).or (l2.lookup k)) := by
  induction l1 with
  | nil => rfl
  | cons p rest ih =>
    obtain ⟨a, b⟩ := p
    simp only [List.cons_append, List.lookup]
    cases h : (k == a)
    · simpa using ih
    · rfl

theorem lookup_mem_pair {β : Type} {k : String} {l : List (String × β)} {v : β}
    (h : l.lookup k = some v) : (k, v) ∈ l := by
  induction l with
  | nil => cases h
  | cons p rest ih =>
    obtain ⟨a, b⟩ := p
    simp only [List.lookup] at h
    cases hk : (k == a) with
    | false => rw [hk] at h; exact List.mem_cons_of_mem _ (ih h)
    | true =>
      rw [hk] at h
      injection h with hv
      have hka : k = a := by simpa using hk
      subst hka; subst hv
      exact List.mem_cons_self _ _

theorem startsWithL_append (pat l : List Char) :
    startsWithL (pat ++ l) pat = true := by
  induction pat with
  | nil => cases l <;> rfl
  | cons c cs ih => simp [startsWithL, ih]

theorem containsSubL_append_left (l1 l2 pat : List Char)
    (h : containsSubL l2 pat = true) : containsSubL (l1 ++ l2) pat = true := by
  induction l1 with
  | nil => simpa using h
  | cons c cs ih => simp [containsSubL, ih]

theorem containsSubL_self_append (pat l : List Char) :
    containsSubL (pat ++ l) pat = true := by
  cases pat with
  | nil => cases l <;> simp [containsSubL, startsWithL]
  | cons c cs =>
    have h := startsWithL_append (c :: cs) l
    simp only [List.cons_append] at h
    simp [containsSubL, h]

theorem containsSub_middle (a b c : String) : containsSub (a ++ b ++ c) b = true := by
  unfold containsSub
  have hd : (a ++ b ++ c).data = a.data ++ (b.data ++ c.data) := by
    simp [String.data_append]
  rw [hd]
  exact containsSubL_append_left _ _ _ (containsSubL_self_append _ _)

theorem typeOk_ne_undef {t : FTy} {v : JValue} (h : typeOk t v = true) :
    v ≠ JValue.undef := by
  cases t <;> cases v <;> simp [typeOk] at h ⊢

theorem applySchema_congrV (schema : List Field) (raw1 raw2 : Params)
    (h : ∀ f ∈ schema, validateField raw1 f = validateField raw2 f) :
    applySchema schema raw1 = applySchema schema raw2 := by
  induction schema with
  | nil => rfl
  | cons f rest ih =>
    have hf := h f (List.mem_cons_self f rest)
    have hr := ih (fun g hg => h g (List.mem_cons_of_mem f hg))
    simp [applySchema, hf, hr]

end AppTweak

namespace AppTweak

/-- C8: for every tool name in the endpoint table, resolving with platform
`ios` and with platform `android` yields two distinct upstream paths that
differ only in the leading platform segment, and the platform segment of
the resolved path equals the requested platform. -/
theorem c8_platform_substitution :
    ∀ name ∈ endpointNames,
      selectEndpoint name [("platform", JValue.str "ios")] = "ios/" ++ pathTail name ∧
      selectEndpoint name [("platform", JValue.str "android")]
        = "android/" ++ pathTail name ∧
      selectEndpoint name [("platform", JValue.str "ios")]
        ≠ selectEndpoint name [("platform", JValue.str "android")] := by
  decide

/-- Witness for C8 at the `get_reviews` entry. -/
theorem c8_platform_substitution_witness :
    selectEndpoint "get_reviews" [("platform", JValue.str "ios")]
      = "ios/" ++ pathTail "get_reviews" ∧
    selectEndpoint "get_reviews" [("platform", JValue.str "android")]
      = "android/" ++ pathTail "get_reviews" ∧
    selectEndpoint "get_reviews" [("platform", JValue.str "ios")]
      ≠ selectEndpoint "get_reviews" [("platform", JValue.str "android")] :=
  c8_platform_substitution "get_reviews" (by decide)

/-- C4 counterexample: the same name and parameter set presented in two
different key orderings produce two different cache keys, because
`JSON.stringify` serializes fields in insertion order and nothing sorts
them. -/
theorem c4_counterexample :
    cacheKey "get_reviews"
        [("appId", JValue.str "389801252"), ("platform", JValue.str "ios")]
      ≠ cacheKey "get_reviews"
        [("platform", JValue.str "ios"), ("appId", JValue.str "389801252")] := by
  decide

/-- C4 (amended): the dispatcher itself derives the CacheKey from the
parameter record in its given field order, but every registered handler
rebuilds that record in schema declaration order from the validated input,
so two raw tool calls to the same registered tool whose inputs agree as
key-value maps on the schema's field names derive identical CacheKeys. -/
theorem c4_handler_canonicalizes (name : String) (schema : List Field)
    (hs : toolSchemas.lookup name = some schema) (raw1 raw2 : Params)
    (h : ∀ f ∈ schema, lookupParam raw1 f.name = lookupParam raw2 f.name) :
    (applySchema schema raw1).map (cacheKey name)
      = (applySchema schema raw2).map (cacheKey name) := by
  have heq : applySchema schema raw1 = applySchema schema raw2 :=
    applySchema_congrV schema raw1 raw2 (fun f hf => by
      unfold validateField; rw [h f hf])
  rw [heq]

/-- Witness for C4 (amended): the `get_reviews` schema with the same raw
input presented in two key orders. -/
theorem c4_handler_canonicalizes_witness :
    (applySchema [⟨"appId", FTy.fstr, FMode.required⟩, platformField, countryUS]
        [("appId", JValue.str "389801252"), ("platform", JValue.str "ios")]).map
      (cacheKey "get_reviews")
      = (applySchema [⟨"appId", FTy.fstr, FMode.required⟩, platformField, countryUS]
          [("platform", JValue.str "ios"), ("appId", JValue.str "389801252")]).map
        (cacheKey "get_reviews") :=
  c4_handler_canonicalizes "get_reviews" _ (by decide) _ _ (by decide)

theorem toolSchemas_defaults_ok :
    ∀ p ∈ toolSchemas, ∀ f ∈ p.2, defaultOk f = true := by decide

theorem toolSchemas_names_nodup :
    ∀ p ∈ toolSchemas, (p.2.map Field.name).Nodup := by decide

/-- C7: for every registered tool and every schema field with a declared
default, a raw call that omits the field and the same raw call passing the
default value explicitly validate to the same record and hence derive the
same CacheKey (so the two calls cache-hit each other). -/
theorem c7_default_cache_hit (name : String) (schema : List Field)
    (hs : (name, schema) ∈ toolSchemas) (f : Field) (hf : f ∈ schema)
    (d : JValue) (hd : f.mode = FMode.withDefault d)
    (raw : Params) (hmiss : raw.lookup f.name = none) :
    (applySchema schema raw).map (cacheKey name)
      = (applySchema schema (raw ++ [(f.name, d)])).map (cacheKey name) := by
  have hnd : (schema.map Field.name).Nodup := toolSchemas_names_nodup _ hs
  have hdo : defaultOk f = true := toolSchemas_defaults_ok _ hs f hf
  have htk : typeOk f.ty d = true := by
    unfold defaultOk at hdo; rw [hd] at hdo; exact hdo
  have hdu : d ≠ JValue.undef := typeOk_ne_undef htk
  have key : applySchema schema raw = applySchema schema (raw ++ [(f.name, d)]) := by
    apply applySchema_congrV
    intro g hg
    by_cases hgf : g.name = f.name
    · have hgef : g = f := List.inj_on_of_nodup_map hnd hg hf hgf
      subst hgef
      have h1 : lookupParam raw g.name = none := by
        unfold lookupParam; rw [hmiss]
      have h2 : lookupParam (raw ++ [(g.name, d)]) g.name = some d := by
        unfold lookupParam
        rw [lookup_append, hmiss]
        have hl : List.lookup g.name [(g.name, d)] = some d := by
          simp [List.lookup]
        rw [hl]
        cases d with
        | undef => exact absurd rfl hdu
        | _ => rfl
      simp [validateField, h1, h2, hd, htk]
    · have hnone : List.lookup g.name [(f.name, d)] = none := by
        simp only [List.lookup]
        rw [beq_eq_false_iff_ne.mpr hgf]
      have hlk : (raw ++ [(f.name, d)]).lookup g.name = raw.lookup g.name := by
        rw [lookup_append, hnone]
        cases raw.lookup g.name <;> rfl
      simp [validateField, lookupParam, hlk]
  rw [key]

/-- Witness for C7: `get_reviews` omitting `country` versus passing
`country: "US"` explicitly. -/
theorem c7_default_cache_hit_witness :
    (applySchema [⟨"appId", FTy.fstr, FMode.required⟩, platformField, countryUS]
        [("appId", JValue.str "389801252"), ("platform", JValue.str "ios")]).map
      (cacheKey "get_reviews")
      = (applySchema [⟨"appId", FTy.fstr, FMode.required⟩, platformField, countryUS]
          ([("appId", JValue.str "389801252"), ("platform", JValue.str "ios")]
            ++ [("country", JValue.str "US")])).map (cacheKey "get_reviews") :=
  c7_default_cache_hit "get_reviews" _ (by decide) countryUS (by decide)
    (JValue.str "US") (by decide) _ (by decide)

/-- C9: with a configured cache store, a working Redis connection, the key
absent from the cache (cache miss, no intervening eviction) and a
successful upstream, issuing the same call twice performs exactly one
upstream fetch and two cache reads; the second read is a hit and the second
call returns the same payload as the first, taken from the cache. -/
theorem c9_idempotent_within_ttl (env : Env) (cache : Cache) (action : String)
    (params : Params) (data : Json)
    (hredis : env.redisUrl.isSome = true)
    (hgf : env.redisGetFail = none) (hsf : env.redisSetFail = none)
    (hkey : env.apptweakApiKey.isSome = true)
    (hmiss : cacheGet cache (cacheKey action params) = none)
    (hep : selectEndpoint action params ≠ "")
    (hok : env.upstream (selectEndpoint action params) (queryParams params)
            = FetchOutcome.ok data) :
    fetchAppTweakData env cache action params
      = ⟨data, cacheSet cache (cacheKey action params) data,
         [Event.redisGet (cacheKey action params) false,
          Event.httpFetch (selectEndpoint action params) (queryParams params),
          Event.redisSet (cacheKey action params)]⟩ ∧
    fetchAppTweakData env (fetchAppTweakData env cache action params).cache action params
      = ⟨data, cacheSet cache (cacheKey action params) data,
         [Event.redisGet (cacheKey action params) true]⟩ ∧
    ((fetchAppTweakData env cache action params).events ++
      (fetchAppTweakData env (fetchAppTweakData env cache action params).cache
        action params).events).countP Event.isFetch = 1 ∧
    ((fetchAppTweakData env cache action params).events ++
      (fetchAppTweakData env (fetchAppTweakData env cache action params).cache
        action params).events).countP Event.isCacheRead = 2 := by
  obtain ⟨k, hk⟩ := Option.isSome_iff_exists.mp hkey
  have h1 : fetchAppTweakData env cache action params
      = ⟨data, cacheSet cache (cacheKey action params) data,
         [Event.redisGet (cacheKey action params) false,
          Event.httpFetch (selectEndpoint action params) (queryParams params),
          Event.redisSet (cacheKey action params)]⟩ := by
    simp only [fetchAppTweakData, hredis, if_true, hgf, hmiss]
    simp only [fetchMissPath, if_neg hep, makeAppTweakRequest, hk, hok, hredis,
      if_true, hsf]
    rfl
  have hhit : cacheGet (cacheSet cache (cacheKey action params) data)
      (cacheKey action params) = some data := by
    simp [cacheGet, cacheSet, List.lookup]
  have h2 : fetchAppTweakData env (fetchAppTweakData env cache action params).cache
      action params
      = ⟨data, cacheSet cache (cacheKey action params) data,
         [Event.redisGet (cacheKey action params) true]⟩ := by
    rw [h1]
    simp only [fetchAppTweakData, hredis, if_true, hgf, hhit]
  refine ⟨h1, h2, ?_, ?_⟩ <;> rw [h2, h1] <;> rfl

/-- Witness for C9: a concrete environment, an empty cache and the
`get_reviews` scenario call; the double call makes one fetch and two cache
reads. -/
theorem c9_idempotent_within_ttl_witness :
    ((fetchAppTweakData
        ⟨some "redis://cache", some "key",
         fun _ _ => FetchOutcome.ok (Json.str "payload"), none, none⟩
        [] "get_reviews"
        [("appId", JValue.str "389801252"), ("platform", JValue.str "ios"),
         ("country", JValue.str "US")]).events ++
      (fetchAppTweakData
        ⟨some "redis://cache", some "key",
         fun _ _ => FetchOutcome.ok (Json.str "payload"), none, none⟩
        (fetchAppTweakData
          ⟨some "redis://cache", some "key",
           fun _ _ => FetchOutcome.ok (Json.str "payload"), none, none⟩
          [] "get_reviews"
          [("appId", JValue.str "389801252"), ("platform", JValue.str "ios"),
           ("country", JValue.str "US")]).cache "get_reviews"
        [("appId", JValue.str "389801252"), ("platform", JValue.str "ios"),
         ("country", JValue.str "US")]).events).countP Event.isFetch = 1 ∧
    ((fetchAppTweakData
        ⟨some "redis://cache", some "key",
         fun _ _ => FetchOutcome.ok (Json.str "payload"), none, none⟩
        [] "get_reviews"
        [("appId", JValue.str "389801252"), ("platform", JValue.str "ios"),
         ("country", JValue.str "US")]).events ++
      (fetchAppTweakData
        ⟨some "redis://cache", some "key",
         fun _ _ => FetchOutcome.ok (Json.str "payload"), none, none⟩
        (fetchAppTweakData
          ⟨some "redis://cache", some "key",
           fun _ _ => FetchOutcome.ok (Json.str "payload"), none, none⟩
          [] "get_reviews"
          [("appId", JValue.str "389801252"), ("platform", JValue.str "ios"),
           ("country", JValue.str "US")]).cache "get_reviews"
        [("appId", JValue.str "389801252"), ("platform", JValue.str "ios"),
         ("country", JValue.str "US")]).events).countP Event.isCacheRead = 2 :=
  (c9_idempotent_within_ttl
    ⟨some "redis://cache", some "key",
     fun _ _ => FetchOutcome.ok (Json.str "payload"), none, none⟩
    [] "get_reviews"
    [("appId", JValue.str "389801252"), ("platform", JValue.str "ios"),
     ("country", JValue.str "US")]
    (Json.str "payload") rfl rfl rfl rfl rfl (by decide) rfl).2.2

/-- C6: when the upstream responds with a non-2xx status, dispatch returns
an error payload whose message contains the status code, no cache write
occurs (the cache is unchanged), and a subsequent identical call still
attempts the upstream fetch. -/
theorem c6_http_error_not_cached (env : Env) (cache : Cache) (action : String)
    (params : Params) (status : Nat) (body : String)
    (hredis : env.redisUrl.isSome = true)
    (hgf : env.redisGetFail = none)
    (hkey : env.apptweakApiKey.isSome = true)
    (hmiss : cacheGet cache (cacheKey action params) = none)
    (hep : selectEndpoint action params ≠ "")
    (herr : env.upstream (selectEndpoint action params) (queryParams params)
            = FetchOutcome.httpError status body) :
    fetchAppTweakData env cache action params
      = ⟨errPayload ("AppTweak API error (" ++ toString status ++ "): " ++ body),
         cache,
         [Event.redisGet (cacheKey action params) false,
          Event.httpFetch (selectEndpoint action params) (queryParams params)]⟩ ∧
    containsSub ("AppTweak API error (" ++ toString status ++ "): " ++ body)
      (toString status) = true ∧
    (fetchAppTweakData env cache action params).events.countP Event.isCacheWrite = 0 ∧
    (fetchAppTweakData env (fetchAppTweakData env cache action params).cache
        action params).events.countP Event.isFetch = 1 := by
  obtain ⟨k, hk⟩ := Option.isSome_iff_exists.mp hkey
  have h1 : fetchAppTweakData env cache action params
      = ⟨errPayload ("AppTweak API error (" ++ toString status ++ "): " ++ body),
         cache,
         [Event.redisGet (cacheKey action params) false,
          Event.httpFetch (selectEndpoint action params) (queryParams params)]⟩ := by
    simp only [fetchAppTweakData, hredis, if_true, hgf, hmiss]
    simp only [fetchMissPath, if_neg hep, makeAppTweakRequest, hk, herr]
    rfl
  have hcontains : containsSub
      ("AppTweak API error (" ++ toString status ++ "): " ++ body)
      (toString status) = true := by
    have h := containsSub_middle "AppTweak API error (" (toString status)
      ("): " ++ body)
    rw [← String.append_assoc] at h
    exact h
  refine ⟨h1, hcontains, ?_, ?_⟩
  · rw [h1]; rfl
  · simp only [h1]; rfl

/-- Witness for C6: a concrete environment whose upstream always answers
HTTP 500. -/
theorem c6_http_error_not_cached_witness :
    containsSub ("AppTweak API error (" ++ toString 500 ++ "): "
        ++ "Internal Server Error") (toString 500) = true ∧
    (fetchAppTweakData
        ⟨some "redis://cache", some "key",
         fun _ _ => FetchOutcome.httpError 500 "Internal Server Error", none, none⟩
        [] "get_reviews"
        [("appId", JValue.str "389801252"), ("platform", JValue.str "ios"),
         ("country", JValue.str "US")]).events.countP Event.isCacheWrite = 0 ∧
    (fetchAppTweakData
        ⟨some "redis://cache", some "key",
         fun _ _ => FetchOutcome.httpError 500 "Internal Server Error", none, none⟩
        (fetchAppTweakData
          ⟨some "redis://cache", some "key",
           fun _ _ => FetchOutcome.httpError 500 "Internal Server Error", none, none⟩
          [] "get_reviews"
          [("appId", JValue.str "389801252"), ("platform", JValue.str "ios"),
           ("country", JValue.str "US")]).cache "get_reviews"
        [("appId", JValue.str "389801252"), ("platform", JValue.str "ios"),
         ("country", JValue.str "US")]).events.countP Event.isFetch = 1 :=
  (c6_http_error_not_cached
    ⟨some "redis://cache", some "key",
     fun _ _ => FetchOutcome.httpError 500 "Internal Server Error", none, none⟩
    [] "get_reviews"
    [("appId", JValue.str "389801252"), ("platform", JValue.str "ios"),
     ("country", JValue.str "US")]
    500 "Internal Server Error" rfl rfl rfl rfl (by decide) rfl).2

/-- C1 counterexample: with a configured cache whose `set` throws, the
upstream fetch succeeds but the single catch-all converts the cache write
failure into an error payload, so the caller does not receive the
successfully fetched payload — the cache failure is surfaced as an error
result. -/
theorem c1_counterexample :
    (fetchAppTweakData
        ⟨some "redis://cache", some "key",
         fun _ _ => FetchOutcome.ok (Json.str "the-data"), none,
         some "Redis write failed"⟩
        [] "get_reviews"
        [("appId", JValue.str "389801252"), ("platform", JValue.str "ios"),
         ("country", JValue.str "US")]).payload
      = errPayload "Redis write failed" ∧
    (fetchAppTweakData
        ⟨some "redis://cache", some "key",
         fun _ _ => FetchOutcome.ok (Json.str "the-data"), none,
         some "Redis write failed"⟩
        [] "get_reviews"
        [("appId", JValue.str "389801252"), ("platform", JValue.str "ios"),
         ("country", JValue.str "US")]).payload
      ≠ Json.str "the-data" := by
  refine ⟨rfl, ?_⟩
  intro h
  exact Json.noConfusion h

/-- C1 (amended): a cache write failure after a successful upstream fetch is
caught by the dispatcher's catch-all and converted to a structured error
payload — it never escapes as an uncaught fault and nothing is cached — but
the caller then receives that error payload instead of the successfully
fetched data (the fetch did happen: its event is in the trace). -/
theorem c1_cache_write_failure_surfaced (env : Env) (cache : Cache)
    (action : String) (params : Params) (data : Json) (msg : String)
    (hredis : env.redisUrl.isSome = true) (hgf : env.redisGetFail = none)
    (hsf : env.redisSetFail = some msg)
    (hkey : env.apptweakApiKey.isSome = true)
    (hmiss : cacheGet cache (cacheKey action params) = none)
    (hep : selectEndpoint action params ≠ "")
    (hok : env.upstream (selectEndpoint action params) (queryParams params)
            = FetchOutcome.ok data) :
    fetchAppTweakData env cache action params
      = ⟨errPayload msg, cache,
         [Event.redisGet (cacheKey action params) false,
          Event.httpFetch (selectEndpoint action params) (queryParams params),
          Event.redisSetThrew (cacheKey action params)]⟩ := by
  obtain ⟨k, hk⟩ := Option.isSome_iff_exists.mp hkey
  simp only [fetchAppTweakData, hredis, if_true, hgf, hmiss]
  simp only [fetchMissPath, if_neg hep, makeAppTweakRequest, hk, hok, hredis,
    if_true, hsf]
  rfl

/-- Witness for C1 (amended) at the counterexample's environment. -/
theorem c1_cache_write_failure_surfaced_witness :
    fetchAppTweakData
        ⟨some "redis://cache", some "key",
         fun _ _ => FetchOutcome.ok (Json.str "the-data"), none,
         some "Redis write failed"⟩
        [] "get_reviews"
        [("appId", JValue.str "389801252"), ("platform", JValue.str "ios"),
         ("country", JValue.str "US")]
      = ⟨errPayload "Redis write failed", [],
         [Event.redisGet (cacheKey "get_reviews"
            [("appId", JValue.str "389801252"), ("platform", JValue.str "ios"),
             ("country", JValue.str "US")]) false,
          Event.httpFetch (selectEndpoint "get_reviews"
            [("appId", JValue.str "389801252"), ("platform", JValue.str "ios"),
             ("country", JValue.str "US")])
            (queryParams
              [("appId", JValue.str "389801252"), ("platform", JValue.str "ios"),
               ("country", JValue.str "US")]),
          Event.redisSetThrew (cacheKey "get_reviews"
            [("appId", JValue.str "389801252"), ("platform", JValue.str "ios"),
             ("country", JValue.str "US")])]⟩ :=
  c1_cache_write_failure_surfaced
    ⟨some "redis://cache", some "key",
     fun _ _ => FetchOutcome.ok (Json.str "the-data"), none,
     some "Redis write failed"⟩
    [] "get_reviews"
    [("appId", JValue.str "389801252"), ("platform", JValue.str "ios"),
     ("country", JValue.str "US")]
    (Json.str "the-data") "Redis write failed" rfl rfl rfl rfl rfl (by decide) rfl

/-- C2 counterexample: dispatching a name absent from the endpoint table
with a configured cache store performs one cache read before the
unknown-tool check, contradicting "no cache I/O (neither a cache read nor a
cache write)". -/
theorem c2_counterexample :
    (fetchAppTweakData
        ⟨some "redis://cache", some "key", fun _ _ => FetchOutcome.ok Json.null,
         none, none⟩
        [] "not_a_tool" []).events.countP Event.isCacheRead = 1 := by
  rfl

/-- C2 (amended): for a name absent from the endpoint table, dispatch
returns the `Unknown AppTweak API action` error payload, performs no
network I/O and no cache write and leaves the cache unchanged, but it first
attempts one cache read when a cache store is configured; and a name absent
from the registration table is rejected by the tool layer before any
handler runs, so no routing metadata is produced. -/
theorem c2_unknown_tool (env : Env) (cache : Cache) (action : String)
    (params : Params) (raw : Params)
    (hgf : env.redisGetFail = none)
    (hunk : endpoints.lookup action = none)
    (hmiss : cacheGet cache (cacheKey action params) = none)
    (hreg : toolRegs.lookup action = none) :
    fetchAppTweakData env cache action params
      = ⟨errPayload ("Unknown AppTweak API action: " ++ action), cache,
         if env.redisUrl.isSome
           then [Event.redisGet (cacheKey action params) false] else []⟩ ∧
    handleTool env cache action raw = none := by
  have he : selectEndpoint action params = "" := by
    unfold selectEndpoint
    rw [hunk]
    have hrep : replaceFirst "" "ios/" "android/" = "" := rfl
    split <;> simp [hrep]
  constructor
  · by_cases hr : env.redisUrl.isSome
    · simp only [fetchAppTweakData, hr, if_true, hgf, hmiss]
      simp only [fetchMissPath, he, if_pos rfl]
      simp [hr]
    · simp only [fetchAppTweakData, hr, if_false, Bool.false_eq_true]
      simp only [fetchMissPath, he, if_pos rfl]
      simp [hr]
  · simp [handleTool, hreg]

/-- Witness for C2 (amended) at a concrete unknown name. -/
theorem c2_unknown_tool_witness :
    fetchAppTweakData
        ⟨some "redis://cache", some "key", fun _ _ => FetchOutcome.ok Json.null,
         none, none⟩
        [] "not_a_tool" []
      = ⟨errPayload ("Unknown AppTweak API action: " ++ "not_a_tool"), [],
         if (⟨some "redis://cache", some "key",
              fun _ _ => FetchOutcome.ok Json.null, none, none⟩ : Env).redisUrl.isSome
           then [Event.redisGet (cacheKey "not_a_tool" []) false] else []⟩ ∧
    handleTool
        ⟨some "redis://cache", some "key", fun _ _ => FetchOutcome.ok Json.null,
         none, none⟩
        [] "not_a_tool" [] = none :=
  c2_unknown_tool
    ⟨some "redis://cache", some "key", fun _ _ => FetchOutcome.ok Json.null,
     none, none⟩
    [] "not_a_tool" [] [] rfl (by decide) rfl (by decide)

/-- C3 counterexample: with `APPTWEAK_API_KEY` unset, an individual tool
call does not fail at startup — the dispatcher completes the call and
returns a per-call error payload naming the missing variable (and performs
no network I/O). -/
theorem c3_counterexample :
    fetchAppTweakData
        ⟨none, none, fun _ _ => FetchOutcome.ok Json.null, none, none⟩
        [] "get_reviews"
        [("appId", JValue.str "389801252"), ("platform", JValue.str "ios"),
         ("country", JValue.str "US")]
      = ⟨errPayload "APPTWEAK_API_KEY environment variable is not set", [], []⟩ := by
  rfl

/-- C3 (amended): the credential is checked per request inside
`makeAppTweakRequest` and its absence is caught by the dispatcher's
catch-all: every dispatch of a known action returns a per-call error
payload naming the missing variable, before any network I/O; no
startup-time check exists. -/
theorem c3_missing_key_per_call (env : Env) (cache : Cache) (action : String)
    (params : Params)
    (hkey : env.apptweakApiKey = none)
    (hredis : env.redisUrl = none)
    (hep : selectEndpoint action params ≠ "") :
    fetchAppTweakData env cache action params
      = ⟨errPayload "APPTWEAK_API_KEY environment variable is not set",
         cache, []⟩ := by
  simp only [fetchAppTweakData, hredis, Option.isSome_none, Bool.false_eq_true,
    if_false]
  simp only [fetchMissPath, if_neg hep, makeAppTweakRequest, hkey]
  rfl

/-- Witness for C3 (amended). -/
theorem c3_missing_key_per_call_witness :
    fetchAppTweakData
        ⟨none, none, fun _ _ => FetchOutcome.httpError 500 "unused", none, none⟩
        [] "search_app"
        [("query", JValue.str "facebook"), ("platform", JValue.str "android"),
         ("country", JValue.str "US"), ("language", JValue.str "en")]
      = ⟨errPayload "APPTWEAK_API_KEY environment variable is not set", [], []⟩ :=
  c3_missing_key_per_call
    ⟨none, none, fun _ _ => FetchOutcome.httpError 500 "unused", none, none⟩
    [] "search_app"
    [("query", JValue.str "facebook"), ("platform", JValue.str "android"),
     ("country", JValue.str "US"), ("language", JValue.str "en")]
    rfl rfl (by decide)

/-- C5 counterexample: `analyze_top_keywords` called with an empty `appIds`
list passes schema validation (`z.array(z.string())` accepts the empty
array, and no handler checks emptiness), the handler body runs, and exactly
one upstream fetch is performed — no `ValidationFailure` is produced and
upstream IS contacted. -/
theorem c5_counterexample :
    ((handleTool
        ⟨none, some "key", fun _ _ => FetchOutcome.ok Json.null, none, none⟩
        [] "analyze_top_keywords"
        [("appIds", JValue.arr []), ("platform", JValue.str "ios")]).map
      (fun r => r.2.2.countP Event.isFetch)) = some 1 := by
  rfl

/-- C5 (amended): an empty `appIds` list is accepted by the declared schema
and dispatch proceeds: the upstream fetch happens (one fetch event, whose
query carries no `appIds[]` entries because the empty array serializes to
nothing), rather than a validation failure short-circuiting before
upstream. -/
theorem c5_empty_appIds_fetches (env : Env) (cache : Cache)
    (hredis : env.redisUrl = none)
    (hkey : env.apptweakApiKey.isSome = true) :
    ((handleTool env cache "analyze_top_keywords"
        [("appIds", JValue.arr []), ("platform", JValue.str "ios")]).map
      (fun r => r.2.2))
      = some [Event.httpFetch "ios/keywords/top.json"
              [("platform", "ios"), ("country", "US"), ("limit", "10"),
               ("sortBy", "score")]] := by
  obtain ⟨k, hk⟩ := Option.isSome_iff_exists.mp hkey
  have hps : handleTool env cache "analyze_top_keywords"
      [("appIds", JValue.arr []), ("platform", JValue.str "ios")]
      = some (wrapTool env cache "analyze_top_keywords"
          [("appIds", JValue.arr []), ("platform", JValue.str "ios"),
           ("country", JValue.str "US"), ("limit", JValue.num 10),
           ("sortBy", JValue.str "score")]
          "keywords" "top-keywords") := rfl
  rw [hps]
  show some ((wrapTool env cache "analyze_top_keywords"
      [("appIds", JValue.arr []), ("platform", JValue.str "ios"),
       ("country", JValue.str "US"), ("limit", JValue.num 10),
       ("sortBy", JValue.str "score")] "keywords" "top-keywords").2.2) = _
  refine congrArg some ?_
  show (fetchAppTweakData env cache "analyze_top_keywords"
      [("appIds", JValue.arr []), ("platform", JValue.str "ios"),
       ("country", JValue.str "US"), ("limit", JValue.num 10),
       ("sortBy", JValue.str "score")]).events = _
  simp only [fetchAppTweakData, hredis, Option.isSome_none, Bool.false_eq_true,
    if_false]
  simp only [fetchMissPath, if_neg (by decide : ¬(selectEndpoint
    "analyze_top_keywords"
    [("appIds", JValue.arr []), ("platform", JValue.str "ios"),
     ("country", JValue.str "US"), ("limit", JValue.num 10),
     ("sortBy", JValue.str "score")] = "")), makeAppTweakRequest, hk]
  cases env.upstream (selectEndpoint "analyze_top_keywords"
      [("appIds", JValue.arr []), ("platform", JValue.str "ios"),
       ("country", JValue.str "US"), ("limit", JValue.num 10),
       ("sortBy", JValue.str "score")])
      (queryParams
        [("appIds", JValue.arr []), ("platform", JValue.str "ios"),
         ("country", JValue.str "US"), ("limit", JValue.num 10),
         ("sortBy", JValue.str "score")]) with
  | ok data =>
    simp only [hredis, Option.isSome_none, Bool.false_eq_true, if_false]
    rfl
  | httpError status body => rfl

/-- Witness for C5 (amended) at a concrete environment. -/
theorem c5_empty_appIds_fetches_witness :
    ((handleTool
        ⟨none, some "key", fun _ _ => FetchOutcome.httpError 500 "boom",
         none, none⟩
        [] "analyze_top_keywords"
        [("appIds", JValue.arr []), ("platform", JValue.str "ios")]).map
      (fun r => r.2.2))
      = some [Event.httpFetch "ios/keywords/top.json"
              [("platform", "ios"), ("country", "US"), ("limit", "10"),
               ("sortBy", "score")]] :=
  c5_empty_appIds_fetches
    ⟨none, some "key", fun _ _ => FetchOutcome.httpError 500 "boom", none, none⟩
    [] rfl rfl

theorem routing_agrees : ∀ p ∈ toolRegs,
    routingTable.lookup p.1
      = (match p.2.2 with
         | ToolBody.apptweak t s => some (⟨t, s, true⟩ : RoutingInfo)
         | ToolBody.echoBody => none) := by decide

theorem handleTool_routing (env : Env) (cache : Cache) (name : String)
    (raw : Params) (r : Envelope × Cache × List Event)
    (h : handleTool env cache name raw = some r) :
    r.1.routing = routingTable.lookup name := by
  unfold handleTool at h
  cases hreg : toolRegs.lookup name with
  | none => rw [hreg] at h; cases h
  | some sb =>
    rw [hreg] at h
    obtain ⟨schema, body⟩ := sb
    dsimp only at h
    cases happ : applySchema schema raw with
    | none => rw [happ] at h; cases h
    | some ps =>
      rw [happ] at h
      dsimp only at h
      injection h with h
      subst h
      have hagree := routing_agrees _ (lookup_mem_pair hreg)
      cases body with
      | apptweak t s => simp only at hagree; rw [hagree]; rfl
      | echoBody => simp only at hagree; rw [hagree]; rfl

/-- C10: the routing metadata attached by a tool handler is a constant
determined by the tool name alone, equal to the static routing-table entry:
any two successful invocations of the same tool — different environments,
caches, parameters, and upstream outcomes — carry identical routing
metadata; in particular `get_reviews` always carries `tabId "reviews"`,
`sectionId "recent-reviews"`, `highlightEffect true`. -/
theorem c10_routing_static (name : String) (env env' : Env)
    (cache cache' : Cache) (raw raw' : Params)
    (r r' : Envelope × Cache × List Event)
    (h : handleTool env cache name raw = some r)
    (h' : handleTool env' cache' name raw' = some r') :
    r.1.routing = routingTable.lookup name ∧
    r.1.routing = r'.1.routing ∧
    (name = "get_reviews" →
      r.1.routing = some ⟨"reviews", "recent-reviews", true⟩) := by
  have a1 := handleTool_routing env cache name raw r h
  have a2 := handleTool_routing env' cache' name raw' r' h'
  refine ⟨a1, a1.trans a2.symm, ?_⟩
  intro hn; subst hn; rw [a1]; rfl

/-- Witness for C10: two `get_reviews` invocations with different
parameters and opposite upstream outcomes (success vs HTTP 500) carry the
same literal routing metadata. -/
theorem c10_routing_static_witness :
    ((⟨⟨Content.json (Json.str "A"), some ⟨"reviews", "recent-reviews", true⟩⟩,
       ([] : Cache),
       [Event.httpFetch "ios/applications/reviews.json"
         [("appId", "1"), ("platform", "ios"), ("country", "US")]]⟩ :
       Envelope × Cache × List Event).1.routing
        = routingTable.lookup "get_reviews") ∧
    ((⟨⟨Content.json (Json.str "A"), some ⟨"reviews", "recent-reviews", true⟩⟩,
       ([] : Cache),
       [Event.httpFetch "ios/applications/reviews.json"
         [("appId", "1"), ("platform", "ios"), ("country", "US")]]⟩ :
       Envelope × Cache × List Event).1.routing
        = (⟨⟨Content.json (errPayload ("AppTweak API error ("
              ++ toString 500 ++ "): " ++ "boom")),
            some ⟨"reviews", "recent-reviews", true⟩⟩,
           ([] : Cache),
           [Event.httpFetch "ios/applications/reviews.json"
             [("appId", "2"), ("platform", "ios"), ("country", "DE")]]⟩ :
           Envelope × Cache × List Event).1.routing) ∧
    ("get_reviews" = "get_reviews" →
      (⟨⟨Content.json (Json.str "A"), some ⟨"reviews", "recent-reviews", true⟩⟩,
        ([] : Cache),
        [Event.httpFetch "ios/applications/reviews.json"
          [("appId", "1"), ("platform", "ios"), ("country", "US")]]⟩ :
        Envelope × Cache × List Event).1.routing
         = some ⟨"reviews", "recent-reviews", true⟩) :=
  c10_routing_static "get_reviews"
    ⟨none, some "key", fun _ _ => FetchOutcome.ok (Json.str "A"), none, none⟩
    ⟨none, some "key", fun _ _ => FetchOutcome.httpError 500 "boom", none, none⟩
    [] []
    [("appId", JValue.str "1"), ("platform", JValue.str "ios")]
    [("appId", JValue.str "2"), ("platform", JValue.str "ios"),
     ("country", JValue.str "DE")]
    _ _ rfl rfl

end AppTweak
